import Mathlib

/-!
Shallow embedding of the `parking_helper` repository: an Arduino parking
assistant in three overlapping variants.

* `src/unnamed/part_000` — the AsyncSonar state-machine variant
  (states AWAY / PARKING / PARKED, hysteresis on `prevDistance`,
  inactivity timer, LED bar rendered in `parkingPingReceived`).
* `src/unnamed/part_001` — the synchronous polling variant
  (readDistance polled by per-state tick functions, sweet-spot `level`).
* `src/parking_helper.ino` — the minimal tutorial variant
  (one loop: read distance, map to lit LEDs, draw).

Machine integers are embedded as `Nat` with explicit `% 2 ^ 16` where AVR
`unsigned int` overflow matters, and as `Int` with truncating division
(`Int.tdiv`) where C++ signed `long` arithmetic matters (Arduino `map`).
Timers (`LightChrono`) are embedded as stored start instants plus a `now`
argument: `restart()` sets the start to `now`, `hasPassed(t)` checks
`now - start ≥ t`.
-/

namespace ParkingHelper

/-! ## Configuration constants of `src/unnamed/part_000` -/

def NUM_LEDS : Nat := 24
def MIN_TRIGGER_DISTANCE : Nat := 4
def MAX_TRIGGER_DISTANCE : Nat := 100
def INACTIVITY_SECONDS : Nat := 5
def MIN_DISPLAY_DISTANCE : Nat := 10
def MAX_DISPLAY_DISTANCE : Nat := 80
def FAST_TRIGGER_INTERVAL : Nat := 35
def SLOW_TRIGGER_INTERVAL : Nat := 250

/-- AVR `unsigned int` is 16 bits; its arithmetic is modulo `2 ^ 16`. -/
def UINT_MOD : Nat := 2 ^ 16

/-- An RGB color (FastLED `CRGB`), one byte per channel. -/
structure CRGB where
  r : Nat
  g : Nat
  b : Nat
deriving DecidableEq, Repr

/-- The LED strip's address space. Pixel writes land at computed `Nat`
indices; in-bounds behaviour (`< NUM_LEDS`) is a proved property, not an
assumption baked into the type. -/
def Frame : Type := Nat → CRGB

/-- `leds[j] = c`. -/
def writePixel (f : Frame) (j : Nat) (c : CRGB) : Frame :=
  fun k => if k = j then c else f k

/-- FastLED `fill_solid(leds, n, c)`: writes `c` to indices `0 .. n-1`. -/
def fill_solid (f : Frame) (n : Nat) (c : CRGB) : Frame :=
  fun k => if k < n then c else f k

/-- Modelled from the spec: FastLED's `DEFINE_GRADIENT_PALETTE` /
`CRGBPalette16` / `ColorFromPalette` machinery is an external library
(out of scope in the spec); the spec describes a GradientPalette as an
ordered sequence of (position ∈ [0,255], color) control points "queried by
linear interpolation between the two bracketing control points".
`lerpChannel a bv p1 p2 pos` linearly interpolates one channel between
control positions `p1` and `p2`. -/
def lerpChannel (a bv p1 p2 pos : Nat) : Int :=
  if p2 ≤ p1 then (a : Int)
  else (a : Int) + ((bv : Int) - (a : Int)) * ((pos : Int) - (p1 : Int)) / ((p2 : Int) - (p1 : Int))

/-- Modelled from the spec: palette lookup by linear interpolation between
the two bracketing control points (the external FastLED library's
`ColorFromPalette`, specified only at its interface). -/
def interpolate : List (Nat × CRGB) → Nat → CRGB
  | [], _ => ⟨0, 0, 0⟩
  | [(_, c)], _ => c
  | (p1, c1) :: (p2, c2) :: rest, pos =>
    if pos ≤ p2 then
      ⟨(lerpChannel c1.r c2.r p1 p2 pos).toNat,
       (lerpChannel c1.g c2.g p1 p2 pos).toNat,
       (lerpChannel c1.b c2.b p1 p2 pos).toNat⟩
    else interpolate ((p2, c2) :: rest) pos

/-- Modelled from the spec: `ColorFromPalette(pallet, idx)` (external). -/
def ColorFromPalette (pal : List (Nat × CRGB)) (idx : Nat) : CRGB :=
  interpolate pal idx

/-- `warning_gp` gradient control points of `src/unnamed/part_000`:
green at 0, bright yellow at 128, red at 224 and 255. -/
def warning_gp : List (Nat × CRGB) :=
  [(0, ⟨0, 255, 0⟩), (128, ⟨255, 255, 0⟩), (224, ⟨255, 0, 0⟩), (255, ⟨255, 0, 0⟩)]

/-- Arduino `constrain(amt, low, high)` on unsigned values. -/
def constrainN (amt low high : Nat) : Nat :=
  if amt < low then low else if high < amt then high else amt

/-- Arduino `map(x, in_min, in_max, out_min, out_max)`:
`(x - in_min) * (out_max - out_min) / (in_max - in_min) + out_min` in
C `long` arithmetic (division truncates toward zero, hence `Int.tdiv`). -/
def arduinoMap (x inMin inMax outMin outMax : Int) : Int :=
  Int.tdiv ((x - inMin) * (outMax - outMin)) (inMax - inMin) + outMin

/-- Arduino `constrain(amt, low, high)` on `long` values. -/
def constrainI (amt low high : Int) : Int :=
  if amt < low then low else if high < amt then high else amt

/-- AVR `unsigned int` subtraction `a - b` (modulo `2 ^ 16`). The Arduino
`abs` macro `((x)>0?(x):-(x))` applied to an unsigned value is the
identity, so `abs(distance-prevDistance)` in `parkingPingReceived`
evaluates to exactly this wrapped difference. -/
def uintSub (a bv : Nat) : Nat :=
  (a % UINT_MOD + (UINT_MOD - bv % UINT_MOD)) % UINT_MOD

/-! ## Distance-to-lit-pixel mappings -/

/-- `src/unnamed/part_000`, `parkingPingReceived` lines 228-229:
clamp the distance to the display range, then
`litLeds = (NUM_LEDS/2) - (NUM_LEDS/2) * (distance-MIN_DISPLAY_DISTANCE)
/ (MAX_DISPLAY_DISTANCE-MIN_DISPLAY_DISTANCE)`.
After the clamp every subtraction and the product (≤ 12·70) stay far below
`2 ^ 16`, so plain `Nat` arithmetic coincides with the AVR unsigned
arithmetic. -/
def parkingLitLeds (distance : Nat) : Nat :=
  let d := constrainN distance MIN_DISPLAY_DISTANCE MAX_DISPLAY_DISTANCE
  NUM_LEDS / 2 -
    NUM_LEDS / 2 * (d - MIN_DISPLAY_DISTANCE) / (MAX_DISPLAY_DISTANCE - MIN_DISPLAY_DISTANCE)

/-- `src/unnamed/part_000` line 237: palette position for loop index `i`. -/
def parkingColorIndex (i : Nat) : Nat :=
  255 * i / (NUM_LEDS / 2)

/-- The render loop of `src/unnamed/part_000`, `parkingPingReceived`
lines 236-241: for `i` in `[0, litLeds)` set pixels `i` and
`NUM_LEDS-1-i` to `ColorFromPalette(pallet, 255*i/(NUM_LEDS/2))`. -/
def renderFrame (litLeds : Nat) (f : Frame) : Frame :=
  (List.range litLeds).foldl
    (fun fr i =>
      let color := ColorFromPalette warning_gp (parkingColorIndex i)
      writePixel (writePixel fr i color) (NUM_LEDS - 1 - i) color)
    f

/-! ## `src/parking_helper.ino` (tutorial variant) -/

def INO_NUM_LEDS : Nat := 10

/-- `src/parking_helper.ino` line 53:
`litLeds = constrain(map(distance, 30, 305, 0, NUM_LEDS/2), 0, NUM_LEDS/2)`
in `long` arithmetic, then stored into `uint8_t` (the constrained value is
in `[0, 5]`, so the narrowing conversion is value-preserving). -/
def inoLitLeds (distance : Nat) : Nat :=
  (constrainI (arduinoMap (distance : Int) 30 305 0 (INO_NUM_LEDS / 2 : Nat))
    0 (INO_NUM_LEDS / 2 : Nat)).toNat

/-- `src/parking_helper.ino` line 58: palette position for loop index `i`
is `255 - 255*i/(NUM_LEDS/2)` — reversed relative to the other variants. -/
def inoColorIndex (i : Nat) : Nat :=
  255 - 255 * i / (INO_NUM_LEDS / 2)

/-- `warning_gp` of `src/parking_helper.ino` and `src/unnamed/part_001`:
green at 0, bright yellow at 192, red at 255. -/
def ino_warning_gp : List (Nat × CRGB) :=
  [(0, ⟨0, 255, 0⟩), (192, ⟨255, 255, 0⟩), (255, ⟨255, 0, 0⟩)]

/-- `src/parking_helper.ino` lines 56-61: blank the strip with
`fill_solid`, then for `i` in `[0, litLeds)` set pixels `i` and
`NUM_LEDS-1-i` to `ColorFromPalette(pallet, 255-255*i/(NUM_LEDS/2))`. -/
def inoRenderFrame (litLeds : Nat) (f : Frame) : Frame :=
  (List.range litLeds).foldl
    (fun fr i =>
      let color := ColorFromPalette ino_warning_gp (inoColorIndex i)
      writePixel (writePixel fr i color) (INO_NUM_LEDS - 1 - i) color)
    (fill_solid f INO_NUM_LEDS ⟨0, 0, 0⟩)

/-! ## `src/unnamed/part_001` (polling variant) constants and lit count -/

def POLL_NUM_LEDS : Nat := 10
def INFREQUENT_READS_PER_SECOND : Nat := 2
def MAX_READS_PER_SECOND : Nat := 10

/-- `src/unnamed/part_001` line 186: `litLeds = (NUM_LEDS/2) * level / 255`
(`level` is a `uint8_t`, so `level ≤ 255`). -/
def pollLitLeds (level : Nat) : Nat :=
  POLL_NUM_LEDS / 2 * level / 255

/-! ## The state machine of `src/unnamed/part_000` -/

/-- `enum states` of `src/unnamed/part_000`. -/
inductive CState where
  | AWAY_STATE
  | PARKING_STATE
  | PARKED_STATE
deriving DecidableEq, Repr

open CState

/-- The mutable globals of `src/unnamed/part_000`: current state, the
`isTransitioning` entry flag, `prevDistance`, the inactivity timer's start
instant (LightChrono), the sonar's trigger interval, the LED frame buffer
and the Serial transition log ("AWAY" / "PARKING" / "PARKED" /
"Timed out"; the per-reading debug prints are guarded by
`#ifdef DEBUG_DISTANCE`, which the source leaves commented out, so they
are compiled away). -/
structure Sys where
  state : CState
  isTransitioning : Bool
  prevDistance : Nat
  inactivityStart : Nat
  triggerInterval : Nat
  leds : Frame
  log : List String

/-- State after `setup()`: the globals' initialisers
(`state = AWAY_STATE`, `isTransitioning = true`, `prevDistance = 0`),
LEDs filled all-off, the inactivity timer constructed at time 0. The
AsyncSonar library's initial trigger interval is library-internal and is
never read before `tickAway` overwrites it; `0` stands for that
unspecified default. -/
def initSys : Sys :=
  { state := AWAY_STATE
    isTransitioning := true
    prevDistance := 0
    inactivityStart := 0
    triggerInterval := 0
    leds := fun _ => ⟨0, 0, 0⟩
    log := [] }

/-- `tickAway` (`src/unnamed/part_000` lines 162-171). -/
def tickAway (s : Sys) : Sys :=
  if s.isTransitioning then
    { s with
      isTransitioning := false
      log := s.log ++ ["AWAY"]
      triggerInterval := SLOW_TRIGGER_INTERVAL }
  else s

/-- `awayPingReceived` (lines 173-186); `distance` is the value of the
local `unsigned int distance` (the sensor's mm reading converted to
inches). -/
def awayPingReceived (distance : Nat) (s : Sys) : Sys :=
  if MIN_TRIGGER_DISTANCE < distance ∧ distance < MAX_TRIGGER_DISTANCE then
    { s with state := PARKING_STATE, isTransitioning := true }
  else s

/-- `tickParking` (lines 190-206): consume the entry flag (log, fast
cadence, restart the inactivity timer), then transition to `PARKED_STATE`
once the inactivity timer has passed `INACTIVITY_SECONDS * 1000` ms. -/
def tickParking (now : Nat) (s : Sys) : Sys :=
  let s1 :=
    if s.isTransitioning then
      { s with
        isTransitioning := false
        log := s.log ++ ["PARKING"]
        triggerInterval := FAST_TRIGGER_INTERVAL
        inactivityStart := now }
    else s
  if INACTIVITY_SECONDS * 1000 ≤ now - s1.inactivityStart then
    { s1 with state := PARKED_STATE, isTransitioning := true }
  else s1

/-- `parkingPingReceived` (lines 208-243): discard out-of-band readings;
on a wrapped difference from `prevDistance` above 4 record the reading and
restart the inactivity timer; clamp, convert to a lit count and render. -/
def parkingPingReceived (distance now : Nat) (s : Sys) : Sys :=
  if distance < MIN_TRIGGER_DISTANCE ∨ MAX_TRIGGER_DISTANCE < distance then s
  else
    let s1 :=
      if 4 < uintSub distance s.prevDistance then
        { s with prevDistance := distance, inactivityStart := now }
      else s
    { s1 with leds := renderFrame (parkingLitLeds distance) s1.leds }

/-- `tickParked` (lines 247-260): consume the entry flag (log, blank the
display, slow cadence). -/
def tickParked (s : Sys) : Sys :=
  if s.isTransitioning then
    { s with
      isTransitioning := false
      log := s.log ++ ["PARKED"]
      leds := fill_solid s.leds NUM_LEDS ⟨0, 0, 0⟩
      triggerInterval := SLOW_TRIGGER_INTERVAL }
  else s

/-- `parkedPingReceived` (lines 262-275). -/
def parkedPingReceived (distance : Nat) (s : Sys) : Sys :=
  if MAX_TRIGGER_DISTANCE < distance then
    { s with state := AWAY_STATE, isTransitioning := true }
  else s

/-- `PingRecieved` (sic, lines 79-92): dispatch a sonar reading to the
current state's handler. -/
def PingRecieved (distance now : Nat) (s : Sys) : Sys :=
  match s.state with
  | PARKING_STATE => parkingPingReceived distance now s
  | PARKED_STATE => parkedPingReceived distance s
  | AWAY_STATE => awayPingReceived distance s

/-- `PingTimeout` (lines 94-103): a sensor timeout while `PARKED_STATE`
forces a transition to `AWAY_STATE`; in every other state the switch has
no matching case and the timeout is ignored. -/
def PingTimeout (s : Sys) : Sys :=
  match s.state with
  | PARKED_STATE =>
    { s with state := AWAY_STATE, isTransitioning := true, log := s.log ++ ["Timed out"] }
  | _ => s

/-- One iteration of `loop()` (lines 139-153) without a pending sonar
event: dispatch to the current state's tick. -/
def loopTick (now : Nat) (s : Sys) : Sys :=
  match s.state with
  | AWAY_STATE => tickAway s
  | PARKING_STATE => tickParking now s
  | PARKED_STATE => tickParked s

/-- The externally observable events driving the controller: a loop tick
at instant `now`, a sonar reading dispatched by `sonar.Update`, or a sonar
timeout. -/
inductive Event where
  | tick (now : Nat)
  | ping (distance now : Nat)
  | timeout
deriving DecidableEq, Repr

def stepEvent (s : Sys) : Event → Sys
  | .tick now => loopTick now s
  | .ping distance now => PingRecieved distance now s
  | .timeout => PingTimeout s

/-- Run a trace of events from a state. -/
def runEvents (s : Sys) (es : List Event) : Sys :=
  es.foldl stepEvent s

/-! ## `src/unnamed/part_001` (polling variant): `tickParked` -/

/-- The mutable globals of `src/unnamed/part_001` that `tickParked`
touches: state, entry flag, the read timer's start instant, the frame
buffer and the Serial log. -/
structure PollSys where
  state : CState
  isTransitioning : Bool
  level : Nat
  readStart : Nat
  leds : Frame
  log : List String

/-- `tickParked` of `src/unnamed/part_001` (lines 199-225): consume the
entry flag (log, blank the display, reset the read timer); then, if the
read timer has passed `1000 / INFREQUENT_READS_PER_SECOND` ms
(auto-restarting), take a reading — `reading` is the value `readDistance()`
returns at this tick, `0` encoding a sensor timeout — and on any nonzero
reading transition to `AWAY_STATE`. -/
def pollTickParked (now reading : Nat) (p : PollSys) : PollSys :=
  let p1 :=
    if p.isTransitioning then
      { p with
        isTransitioning := false
        log := p.log ++ ["PARKED"]
        leds := fill_solid p.leds POLL_NUM_LEDS ⟨0, 0, 0⟩
        readStart := now }
    else p
  if 1000 / INFREQUENT_READS_PER_SECOND ≤ now - p1.readStart then
    let p2 := { p1 with readStart := now, log := p1.log ++ ["Distance: " ++ toString reading] }
    if 0 < reading then
      { p2 with state := AWAY_STATE, isTransitioning := true }
    else p2
  else p1

/-! ## Theorems -/

/-- C1: for every distance `d` with
`MIN_TRIGGER_DISTANCE < d < MAX_TRIGGER_DISTANCE`, a single accepted
reading received in the `Away` state transitions the controller to
`Parking`; a reading outside this band leaves the whole controller state
unchanged, and an absent reading (sensor timeout) received in `Away` is
ignored. -/
theorem c1_away_reading_transitions (distance now : Nat) (s : Sys)
    (hs : s.state = AWAY_STATE) :
    (MIN_TRIGGER_DISTANCE < distance ∧ distance < MAX_TRIGGER_DISTANCE →
      (PingRecieved distance now s).state = PARKING_STATE) ∧
    (¬(MIN_TRIGGER_DISTANCE < distance ∧ distance < MAX_TRIGGER_DISTANCE) →
      PingRecieved distance now s = s) ∧
    PingTimeout s = s := by
  have e : PingRecieved distance now s = awayPingReceived distance s := by
    unfold PingRecieved
    rw [hs]
  refine ⟨?_, ?_, ?_⟩
  · intro h
    rw [e]
    unfold awayPingReceived
    rw [if_pos h]
  · intro h
    rw [e]
    unfold awayPingReceived
    rw [if_neg h]
  · unfold PingTimeout
    rw [hs]

/-- Witness for C1 at the concrete in-band reading 50 from the initial
(`Away`) state. -/
theorem c1_witness : (PingRecieved 50 0 initSys).state = PARKING_STATE :=
  (c1_away_reading_transitions 50 0 initSys rfl).1 (by decide)

/-- The concrete `PARKING_STATE` configuration exhibiting the hysteresis
sign bug: `prevDistance = 50` and an in-band reading of 48 arrives. -/
def hysteresisBugSys : Sys :=
  { initSys with state := PARKING_STATE, isTransitioning := false, prevDistance := 50 }

/-- C2 (failing evaluation): the reading 48 differs from
`prevDistance = 50` by only 2 ≤ 4 units, yet `parkingPingReceived`
records it and restarts the inactivity timer, because
`abs(distance-prevDistance)` is computed on AVR `unsigned int`s
(`48 - 50` wraps to `65534 > 4` and the Arduino `abs` macro is the
identity on unsigned values). -/
theorem c2_hysteresis_unsigned_wrap :
    50 - 48 ≤ 4 ∧
    uintSub 48 50 = 65534 ∧
    (parkingPingReceived 48 1000 hysteresisBugSys).prevDistance = 48 ∧
    (parkingPingReceived 48 1000 hysteresisBugSys).inactivityStart = 1000 := by
  refine ⟨by decide, by decide, rfl, rfl⟩

/-- C3: from `Parked`, the asynchronous variant (`part_000`) transitions
to `Away` exactly on a reading strictly above `MAX_TRIGGER_DISTANCE`
(anything else leaves the controller unchanged), while the polling
variant (`part_001`) transitions to `Away` on any successful (nonzero)
reading and stays `Parked` on a zero (timed-out) reading. -/
theorem c3_parked_to_away (d now : Nat) (s : Sys) (p : PollSys)
    (hs : s.state = PARKED_STATE)
    (hp : p.state = PARKED_STATE) (hf : p.isTransitioning = false)
    (ht : 1000 / INFREQUENT_READS_PER_SECOND ≤ now - p.readStart) :
    (MAX_TRIGGER_DISTANCE < d → (PingRecieved d now s).state = AWAY_STATE) ∧
    (d ≤ MAX_TRIGGER_DISTANCE → PingRecieved d now s = s) ∧
    (0 < d → (pollTickParked now d p).state = AWAY_STATE) ∧
    (d = 0 → (pollTickParked now d p).state = PARKED_STATE) := by
  have e : PingRecieved d now s = parkedPingReceived d s := by
    unfold PingRecieved
    rw [hs]
  refine ⟨?_, ?_, ?_, ?_⟩
  · intro h
    rw [e]
    unfold parkedPingReceived
    rw [if_pos h]
  · intro h
    rw [e]
    unfold parkedPingReceived
    rw [if_neg (by omega)]
  · intro h
    unfold pollTickParked
    simp only [hf, Bool.false_eq_true, if_false, if_pos ht, if_pos h]
  · intro h
    subst h
    unfold pollTickParked
    simp only [hf, Bool.false_eq_true, if_false, if_pos ht, lt_irrefl, if_neg (lt_irrefl 0)]
    exact hp

/-- Witness for C3: a reading of 150 > `MAX_TRIGGER_DISTANCE` while
`Parked` sends the asynchronous variant to `Away`, and the same nonzero
reading sends the polling variant to `Away`. -/
theorem c3_witness :
    (PingRecieved 150 500 { initSys with state := PARKED_STATE }).state = AWAY_STATE ∧
    (pollTickParked 500 150
      { state := PARKED_STATE, isTransitioning := false, level := 0,
        readStart := 0, leds := fun _ => ⟨0, 0, 0⟩, log := [] }).state = AWAY_STATE :=
  ⟨(c3_parked_to_away 150 500 { initSys with state := PARKED_STATE }
      { state := PARKED_STATE, isTransitioning := false, level := 0,
        readStart := 0, leds := fun _ => ⟨0, 0, 0⟩, log := [] }
      rfl rfl rfl (by decide)).1 (by decide),
   (c3_parked_to_away 150 500 { initSys with state := PARKED_STATE }
      { state := PARKED_STATE, isTransitioning := false, level := 0,
        readStart := 0, leds := fun _ => ⟨0, 0, 0⟩, log := [] }
      rfl rfl rfl (by decide)).2.2.1 (by decide)⟩

/-- C8: in the `Parking` state a reading below `MIN_TRIGGER_DISTANCE` or
above `MAX_TRIGGER_DISTANCE` is discarded before any mutation: the entire
controller state (current state, `prevDistance`, inactivity timer, frame
buffer) is left unchanged. -/
theorem c8_parking_discards_out_of_band (distance now : Nat) (s : Sys)
    (hs : s.state = PARKING_STATE)
    (h : distance < MIN_TRIGGER_DISTANCE ∨ MAX_TRIGGER_DISTANCE < distance) :
    PingRecieved distance now s = s := by
  have e : PingRecieved distance now s = parkingPingReceived distance now s := by
    unfold PingRecieved
    rw [hs]
  rw [e]
  unfold parkingPingReceived
  rw [if_pos h]

/-- Witness for C8 at the concrete out-of-band reading 200 while
`Parking`. -/
theorem c8_witness :
    PingRecieved 200 0 { initSys with state := PARKING_STATE } =
      { initSys with state := PARKING_STATE } :=
  c8_parking_discards_out_of_band 200 0 _ rfl (Or.inr (by decide))

/-! ## Render-loop lemmas -/

theorem writePixel_same (f : Frame) (j : Nat) (c : CRGB) : writePixel f j c j = c := by
  unfold writePixel
  rw [if_pos rfl]

theorem writePixel_other (f : Frame) (j k : Nat) (c : CRGB) (h : k ≠ j) :
    writePixel f j c k = f k := by
  unfold writePixel
  rw [if_neg h]

theorem renderFrame_succ (n : Nat) (f : Frame) :
    renderFrame (n + 1) f =
      writePixel
        (writePixel (renderFrame n f) n (ColorFromPalette warning_gp (parkingColorIndex n)))
        (NUM_LEDS - 1 - n)
        (ColorFromPalette warning_gp (parkingColorIndex n)) := by
  unfold renderFrame
  rw [List.range_succ, List.foldl_append]
  rfl

/-- The lit count of `part_000` never exceeds `NUM_LEDS / 2`. -/
theorem parkingLitLeds_le (d : Nat) : parkingLitLeds d ≤ NUM_LEDS / 2 :=
  Nat.sub_le _ _

/-- The render loop of `part_000` leaves every address at or beyond
`NUM_LEDS` untouched. -/
theorem renderFrame_stable (n : Nat) (hn : n ≤ NUM_LEDS) (f : Frame) (j : Nat)
    (hj : NUM_LEDS ≤ j) : renderFrame n f j = f j := by
  have hN : NUM_LEDS = 24 := rfl
  induction n with
  | zero => rfl
  | succ m ih =>
    rw [renderFrame_succ,
      writePixel_other _ _ _ _ (by omega),
      writePixel_other _ _ _ _ (by omega)]
    exact ih (by omega)

/-- Mirror symmetry of a frame about the strip's midpoint
(`NUM_LEDS` is even, so index `i` pairs with `NUM_LEDS - 1 - i`). -/
def FrameSymmetric (f : Frame) : Prop :=
  ∀ i, i < NUM_LEDS → f i = f (NUM_LEDS - 1 - i)

/-- Writing one color to the mirrored pair `(i0, NUM_LEDS-1-i0)`
preserves mirror symmetry. -/
theorem writePair_symmetric (f : Frame) (i0 : Nat) (c : CRGB)
    (hi : i0 < NUM_LEDS) (hf : FrameSymmetric f) :
    FrameSymmetric (writePixel (writePixel f i0 c) (NUM_LEDS - 1 - i0) c) := by
  intro j hj
  have hN : NUM_LEDS = 24 := rfl
  show (if j = NUM_LEDS - 1 - i0 then c else if j = i0 then c else f j) =
    (if NUM_LEDS - 1 - j = NUM_LEDS - 1 - i0 then c
     else if NUM_LEDS - 1 - j = i0 then c else f (NUM_LEDS - 1 - j))
  by_cases h1 : j = NUM_LEDS - 1 - i0
  · rw [if_pos h1, if_neg (by omega), if_pos (by omega)]
  · by_cases h2 : j = i0
    · rw [if_neg h1, if_pos h2, if_pos (by omega)]
    · rw [if_neg h1, if_neg h2, if_neg (by omega), if_neg (by omega)]
      exact hf j hj

/-- The render loop of `part_000` preserves mirror symmetry. -/
theorem renderFrame_symmetric (n : Nat) (hn : n ≤ NUM_LEDS) (f : Frame)
    (hf : FrameSymmetric f) : FrameSymmetric (renderFrame n f) := by
  induction n with
  | zero => exact hf
  | succ m ih =>
    rw [renderFrame_succ]
    exact writePair_symmetric _ m _ (by omega) (ih (by omega))

/-- Blanking the whole strip yields a mirror-symmetric frame. -/
theorem fill_solid_symmetric (f : Frame) (c : CRGB) :
    FrameSymmetric (fill_solid f NUM_LEDS c) := by
  intro j hj
  have hN : NUM_LEDS = 24 := rfl
  show (if j < NUM_LEDS then c else f j) =
    (if NUM_LEDS - 1 - j < NUM_LEDS then c else f (NUM_LEDS - 1 - j))
  rw [if_pos hj, if_pos (by omega)]

theorem tickAway_leds (s : Sys) : (tickAway s).leds = s.leds := by
  rcases s with ⟨st, fl, pd, ia, ti, le, lg⟩
  cases fl <;> rfl

theorem tickParking_leds (now : Nat) (s : Sys) : (tickParking now s).leds = s.leds := by
  unfold tickParking
  dsimp only
  split <;> split <;> rfl

theorem tickParking_prevDistance (now : Nat) (s : Sys) :
    (tickParking now s).prevDistance = s.prevDistance := by
  unfold tickParking
  dsimp only
  split <;> split <;> rfl

/-- `parkingPingReceived` either discards the reading or renders the lit
count of the (clamped) reading on top of the untouched previous frame. -/
theorem parkingPingReceived_leds (d now : Nat) (s : Sys) :
    (parkingPingReceived d now s).leds = s.leds ∨
    (parkingPingReceived d now s).leds = renderFrame (parkingLitLeds d) s.leds := by
  unfold parkingPingReceived
  split
  · exact Or.inl rfl
  · dsimp only
    split
    · exact Or.inr rfl
    · exact Or.inr rfl

/-- Every controller event preserves mirror symmetry of the frame. -/
theorem stepEvent_symmetric (s : Sys) (e : Event) (hf : FrameSymmetric s.leds) :
    FrameSymmetric (stepEvent s e).leds := by
  have hN : NUM_LEDS = 24 := rfl
  cases e with
  | tick now =>
    show FrameSymmetric (loopTick now s).leds
    rcases hs : s.state with _ | _ | _
    · rw [show loopTick now s = tickAway s by unfold loopTick; rw [hs], tickAway_leds]
      exact hf
    · rw [show loopTick now s = tickParking now s by unfold loopTick; rw [hs],
        tickParking_leds]
      exact hf
    · rw [show loopTick now s = tickParked s by unfold loopTick; rw [hs]]
      rcases s with ⟨st, fl, pd, ia, ti, le, lg⟩
      cases fl
      · exact hf
      · exact fill_solid_symmetric le ⟨0, 0, 0⟩
  | ping d now =>
    show FrameSymmetric (PingRecieved d now s).leds
    rcases hs : s.state with _ | _ | _
    · rw [show PingRecieved d now s = awayPingReceived d s by unfold PingRecieved; rw [hs]]
      unfold awayPingReceived
      split
      · exact hf
      · exact hf
    · rw [show PingRecieved d now s = parkingPingReceived d now s by
        unfold PingRecieved; rw [hs]]
      rcases parkingPingReceived_leds d now s with h | h
      · rw [h]; exact hf
      · rw [h]
        exact renderFrame_symmetric _ (le_trans (parkingLitLeds_le d) (by omega)) _ hf
    · rw [show PingRecieved d now s = parkedPingReceived d s by unfold PingRecieved; rw [hs]]
      unfold parkedPingReceived
      split
      · exact hf
      · exact hf
  | timeout =>
    show FrameSymmetric (PingTimeout s).leds
    unfold PingTimeout
    split
    · exact hf
    · exact hf

/-- C6: mirror symmetry is an invariant of the whole controller: starting
from the initial all-off fill, after any sequence of loop ticks, sonar
readings (each of which renders) and timeouts, the frame still satisfies
`leds[i] = leds[NUM_LEDS-1-i]` for every `i < NUM_LEDS`. -/
theorem c6_frame_mirror_invariant (es : List Event) :
    FrameSymmetric (runEvents initSys es).leds := by
  suffices h : ∀ s : Sys, FrameSymmetric s.leds → FrameSymmetric (runEvents s es).leds from
    h initSys (fun i _ => rfl)
  induction es with
  | nil => exact fun s hs => hs
  | cons e rest ih => exact fun s hs => ih (stepEvent s e) (stepEvent_symmetric s e hs)

/-- Witness for C6 on a concrete event trace: enter `Parking` via a
reading of 50, render twice, go inactive into `Parked` (blank), and
check the resulting frame is mirror-symmetric. -/
theorem c6_witness :
    FrameSymmetric (runEvents initSys
      [Event.tick 0, Event.ping 50 0, Event.tick 1, Event.ping 40 30,
       Event.tick 6000, Event.tick 6001]).leds :=
  c6_frame_mirror_invariant _

/-- C5: every variant's lit-pixel count is bounded by half the strip
length, so each pixel write of a render — at index `i < litCount` and at
its mirror `NUM_LEDS-1-i` — lands inside `0 .. NUM_LEDS-1`; accordingly
the render loop leaves every address at or beyond `NUM_LEDS` untouched. -/
theorem c5_lit_count_in_bounds (d level i j : Nat) (f : Frame)
    (hlevel : level ≤ 255) (hi : i < parkingLitLeds d) (hj : NUM_LEDS ≤ j) :
    parkingLitLeds d ≤ NUM_LEDS / 2 ∧
    pollLitLeds level ≤ POLL_NUM_LEDS / 2 ∧
    inoLitLeds d ≤ INO_NUM_LEDS / 2 ∧
    i < NUM_LEDS ∧ NUM_LEDS - 1 - i < NUM_LEDS ∧
    renderFrame (parkingLitLeds d) f j = f j := by
  have hN : NUM_LEDS = 24 := rfl
  have hhalf : NUM_LEDS / 2 = 12 := rfl
  have hb := parkingLitLeds_le d
  refine ⟨hb, ?_, ?_, by omega, by omega, ?_⟩
  · show POLL_NUM_LEDS / 2 * level / 255 ≤ POLL_NUM_LEDS / 2
    have h5 : POLL_NUM_LEDS / 2 = 5 := rfl
    rw [h5]
    omega
  · show (constrainI (arduinoMap (d : Int) 30 305 0 (INO_NUM_LEDS / 2 : Nat))
      0 (INO_NUM_LEDS / 2 : Nat)).toNat ≤ INO_NUM_LEDS / 2
    unfold constrainI
    split
    · decide
    split
    · decide
    · omega
  · exact renderFrame_stable _ (by omega) f j hj

/-- Witness for C5 at distance 10 (full bar), level 255, index 0,
address 24. -/
theorem c5_witness :
    parkingLitLeds 10 ≤ NUM_LEDS / 2 ∧
    pollLitLeds 255 ≤ POLL_NUM_LEDS / 2 ∧
    inoLitLeds 10 ≤ INO_NUM_LEDS / 2 ∧
    0 < NUM_LEDS ∧ NUM_LEDS - 1 - 0 < NUM_LEDS ∧
    renderFrame (parkingLitLeds 10) (fun _ => ⟨0, 0, 0⟩) 24 =
      (fun _ => (⟨0, 0, 0⟩ : CRGB)) 24 :=
  c5_lit_count_in_bounds 10 255 0 24 (fun _ => ⟨0, 0, 0⟩) (by decide) (by decide) (by decide)

/-! ## Monotonicity of the distance-to-display mappings -/

theorem constrainN_mono (a1 a2 low high : Nat) (hlh : low ≤ high) (h : a1 ≤ a2) :
    constrainN a1 low high ≤ constrainN a2 low high := by
  unfold constrainN
  split_ifs <;> omega

/-- The mapping of `part_000`'s `parkingPingReceived` is monotone
non-increasing: a larger clamped distance never lights more pixels. -/
theorem parkingLitLeds_antitone (d1 d2 : Nat) (h : d1 ≤ d2) :
    parkingLitLeds d2 ≤ parkingLitLeds d1 := by
  have hc := constrainN_mono d1 d2 MIN_DISPLAY_DISTANCE MAX_DISPLAY_DISTANCE (by decide) h
  show NUM_LEDS / 2 -
      NUM_LEDS / 2 * (constrainN d2 MIN_DISPLAY_DISTANCE MAX_DISPLAY_DISTANCE -
        MIN_DISPLAY_DISTANCE) / (MAX_DISPLAY_DISTANCE - MIN_DISPLAY_DISTANCE) ≤
    NUM_LEDS / 2 -
      NUM_LEDS / 2 * (constrainN d1 MIN_DISPLAY_DISTANCE MAX_DISPLAY_DISTANCE -
        MIN_DISPLAY_DISTANCE) / (MAX_DISPLAY_DISTANCE - MIN_DISPLAY_DISTANCE)
  apply Nat.sub_le_sub_left
  apply Nat.div_le_div_right
  exact Nat.mul_le_mul_left _ (Nat.sub_le_sub_right hc _)

/-- On the `.ino` map's input range `[30, 305]`, `inoLitLeds` agrees with
the plain `Nat` expression `(d - 30) * 5 / 275`. -/
theorem inoLitLeds_eq (d : Nat) (h30 : 30 ≤ d) (h305 : d ≤ 305) :
    inoLitLeds d = (d - 30) * 5 / 275 := by
  show (constrainI (arduinoMap (d : Int) 30 305 0 5) 0 5).toNat = (d - 30) * 5 / 275
  unfold arduinoMap
  have e1 : ((d : Int) - 30) * ((5 : Int) - 0) = (((d - 30) * 5 : Nat) : Int) := by
    push_cast
    have : ((d - 30 : Nat) : Int) = (d : Int) - 30 := by omega
    rw [this]
  rw [e1]
  have e2 : Int.tdiv ((((d - 30) * 5 : Nat)) : Int) ((305 : Int) - 30) =
      (((d - 30) * 5 / 275 : Nat) : Int) := rfl
  rw [e2]
  unfold constrainI
  have hq : (d - 30) * 5 / 275 ≤ 5 := by omega
  split_ifs <;> omega

/-- The `.ino` mapping is monotone non-decreasing on its input range:
a larger distance lights at least as many pixels. -/
theorem inoLitLeds_mono (d1 d2 : Nat) (h30 : 30 ≤ d1) (h : d1 ≤ d2) (h305 : d2 ≤ 305) :
    inoLitLeds d1 ≤ inoLitLeds d2 := by
  rw [inoLitLeds_eq d1 h30 (le_trans h h305), inoLitLeds_eq d2 (le_trans h30 h) h305]
  apply Nat.div_le_div_right
  have : d1 - 30 ≤ d2 - 30 := by omega
  exact Nat.mul_le_mul_right _ this

/-- C4 counterexample: the claim quantifies over both cited mappings, but
in `parking_helper.ino` line 53 the lit count grows with distance:
distances 30 ≤ 305 light 0 and 5 pixels respectively, so the closer
obstacle lights strictly fewer pixels there. -/
theorem c4_ino_counterexample :
    (30 : Nat) ≤ 305 ∧ inoLitLeds 30 = 0 ∧ inoLitLeds 305 = 5 ∧
    ¬ inoLitLeds 305 ≤ inoLitLeds 30 := by decide

/-- C4 (amended): the state-machine variant's mapping
(`parkingPingReceived`, clamped internally to the display range) is
monotone non-increasing — a closer obstacle never lights fewer pixels —
while the `parking_helper.ino` mapping is reversed: on its input range
`[30, 305]` it is monotone non-decreasing, so there a closer obstacle
never lights more pixels. -/
theorem c4_monotone_mappings (d1 d2 : Nat) (h : d1 ≤ d2) :
    parkingLitLeds d2 ≤ parkingLitLeds d1 ∧
    (30 ≤ d1 → d2 ≤ 305 → inoLitLeds d1 ≤ inoLitLeds d2) :=
  ⟨parkingLitLeds_antitone d1 d2 h, fun h30 h305 => inoLitLeds_mono d1 d2 h30 h h305⟩

/-- Witness for C4 at the concrete pair 30 ≤ 305. -/
theorem c4_witness :
    parkingLitLeds 305 ≤ parkingLitLeds 30 ∧
    (30 ≤ 30 → 305 ≤ 305 → inoLitLeds 30 ≤ inoLitLeds 305) :=
  c4_monotone_mappings 30 305 (by decide)

/-! ## Per-pixel colors of the render loop -/

/-- After a render with lit count `n ≤ NUM_LEDS / 2`, pixel `i < n` and
its mirror `NUM_LEDS-1-i` hold exactly the palette color at position
`parkingColorIndex i` (later iterations never overwrite them). -/
theorem renderFrame_get (n i : Nat) (hn : n ≤ NUM_LEDS / 2) (hi : i < n) (f : Frame) :
    renderFrame n f i = ColorFromPalette warning_gp (parkingColorIndex i) ∧
    renderFrame n f (NUM_LEDS - 1 - i) =
      ColorFromPalette warning_gp (parkingColorIndex i) := by
  have hN : NUM_LEDS = 24 := rfl
  have hhalf : NUM_LEDS / 2 = 12 := rfl
  induction n with
  | zero => omega
  | succ m ih =>
    rcases Nat.lt_succ_iff_lt_or_eq.mp hi with h | h
    · obtain ⟨e1, e2⟩ := ih (by omega) h
      constructor
      · rw [renderFrame_succ,
          writePixel_other _ _ _ _ (by omega),
          writePixel_other _ _ _ _ (by omega)]
        exact e1
      · rw [renderFrame_succ,
          writePixel_other _ _ _ _ (by omega),
          writePixel_other _ _ _ _ (by omega)]
        exact e2
    · subst h
      constructor
      · rw [renderFrame_succ,
          writePixel_other _ _ _ _ (by omega),
          writePixel_same]
      · rw [renderFrame_succ, writePixel_same]

/-- C9 counterexample: the claim quantifies over every render and cites
`parking_helper.ino` lines 57-61, but there the palette position for loop
index 1 is `255 - 255*1/(NUM_LEDS/2) = 204`, not `255*1/(NUM_LEDS/2) = 51`,
and after a render with lit count 2 pixel 1 holds the interpolated color
at position 204·(red-heavy), not the color at position 51 (green-heavy). -/
theorem c9_ino_counterexample :
    inoColorIndex 1 = 204 ∧ 255 * 1 / (INO_NUM_LEDS / 2) = 51 ∧
    inoColorIndex 1 ≠ 255 * 1 / (INO_NUM_LEDS / 2) ∧
    inoRenderFrame 2 (fun _ => ⟨0, 0, 0⟩) 1 ≠
      ColorFromPalette ino_warning_gp (255 * 1 / (INO_NUM_LEDS / 2)) := by decide

/-- C9 (amended): in the state-machine variant the palette position used
for pixels `i` and `NUM_LEDS-1-i` of a render with lit count
`litCount ≤ NUM_LEDS/2` is exactly `255 * i / (NUM_LEDS/2)`, monotone
non-decreasing in `i` (innermost lit pixels carry the danger end); in
`parking_helper.ino` the position is instead `255 - 255*i/(NUM_LEDS/2)`,
monotone non-increasing in `i` (the outermost pixels carry the danger
end). -/
theorem c9_gradient_positions (n i j : Nat) (f : Frame)
    (hn : n ≤ NUM_LEDS / 2) (hi : i < n) (hj : j < n) (hij : i ≤ j) :
    renderFrame n f i = ColorFromPalette warning_gp (parkingColorIndex i) ∧
    renderFrame n f (NUM_LEDS - 1 - i) =
      ColorFromPalette warning_gp (parkingColorIndex i) ∧
    parkingColorIndex i = 255 * i / (NUM_LEDS / 2) ∧
    parkingColorIndex i ≤ parkingColorIndex j ∧
    inoColorIndex i = 255 - 255 * i / (INO_NUM_LEDS / 2) ∧
    inoColorIndex j ≤ inoColorIndex i := by
  obtain ⟨e1, e2⟩ := renderFrame_get n i hn hi f
  refine ⟨e1, e2, rfl, ?_, rfl, ?_⟩
  · exact Nat.div_le_div_right (Nat.mul_le_mul_left _ hij)
  · exact Nat.sub_le_sub_left (Nat.div_le_div_right (Nat.mul_le_mul_left _ hij)) _

/-- Witness for C9 on the concrete render with lit count 2 at indices
0 ≤ 1. -/
theorem c9_witness :
    renderFrame 2 (fun _ => ⟨0, 0, 0⟩) 0 =
      ColorFromPalette warning_gp (parkingColorIndex 0) ∧
    renderFrame 2 (fun _ => ⟨0, 0, 0⟩) (NUM_LEDS - 1 - 0) =
      ColorFromPalette warning_gp (parkingColorIndex 0) ∧
    parkingColorIndex 0 = 255 * 0 / (NUM_LEDS / 2) ∧
    parkingColorIndex 0 ≤ parkingColorIndex 1 ∧
    inoColorIndex 0 = 255 - 255 * 0 / (INO_NUM_LEDS / 2) ∧
    inoColorIndex 1 ≤ inoColorIndex 0 :=
  c9_gradient_positions 2 0 1 (fun _ => ⟨0, 0, 0⟩) (by decide) (by decide) (by decide)
    (by decide)

/-! ## Entry-action lemmas -/

/-- Entering `Away`: one tick consumes the flag, logs once and sets the
slow cadence. -/
theorem tickAway_entry (s : Sys) (h : s.isTransitioning = true) :
    tickAway s =
      { s with
          isTransitioning := false
          log := s.log ++ ["AWAY"]
          triggerInterval := SLOW_TRIGGER_INTERVAL } := by
  unfold tickAway
  rw [if_pos h]

theorem tickAway_skip (s : Sys) (h : s.isTransitioning = false) : tickAway s = s := by
  unfold tickAway
  rw [if_neg (by simp [h])]

/-- Entering `Parking`: one tick consumes the flag, logs once, sets the
fast cadence and restarts the inactivity timer; the freshly restarted
timer cannot have passed, so no transition fires on the same tick. -/
theorem tickParking_entry (now : Nat) (s : Sys) (h : s.isTransitioning = true) :
    tickParking now s =
      { s with
          isTransitioning := false
          log := s.log ++ ["PARKING"]
          triggerInterval := FAST_TRIGGER_INTERVAL
          inactivityStart := now } := by
  have hI : INACTIVITY_SECONDS = 5 := rfl
  unfold tickParking
  dsimp only
  rw [if_pos h]
  dsimp only
  rw [Nat.sub_self, if_neg (by omega)]

theorem tickParking_skip (now : Nat) (s : Sys) (h : s.isTransitioning = false)
    (hlt : now - s.inactivityStart < INACTIVITY_SECONDS * 1000) :
    tickParking now s = s := by
  unfold tickParking
  dsimp only
  rw [if_neg (show ¬(s.isTransitioning = true) by simp [h]),
    if_neg (show ¬(INACTIVITY_SECONDS * 1000 ≤ now - s.inactivityStart) by omega)]

/-- Entering `Parked`: one tick consumes the flag, logs once, blanks the
display and sets the slow cadence. -/
theorem tickParked_entry (s : Sys) (h : s.isTransitioning = true) :
    tickParked s =
      { s with
          isTransitioning := false
          log := s.log ++ ["PARKED"]
          leds := fill_solid s.leds NUM_LEDS ⟨0, 0, 0⟩
          triggerInterval := SLOW_TRIGGER_INTERVAL } := by
  unfold tickParked
  rw [if_pos h]

theorem tickParked_skip (s : Sys) (h : s.isTransitioning = false) : tickParked s = s := by
  unfold tickParked
  rw [if_neg (by simp [h])]

/-- C7: entry actions run exactly once per transition — the first tick in
the newly entered state performs the entry actions (transition log line,
cadence change, inactivity-timer restart or display blanking as
applicable) and clears the `isTransitioning` flag; a tick with the flag
already cleared (and, for `Parking`, the inactivity window still open)
changes nothing, so repeating a tick never repeats the entry actions. -/
theorem c7_entry_actions_once (s : Sys) (now now2 : Nat) :
    (s.isTransitioning = true →
      tickAway s =
        { s with
            isTransitioning := false
            log := s.log ++ ["AWAY"]
            triggerInterval := SLOW_TRIGGER_INTERVAL } ∧
      tickParking now s =
        { s with
            isTransitioning := false
            log := s.log ++ ["PARKING"]
            triggerInterval := FAST_TRIGGER_INTERVAL
            inactivityStart := now } ∧
      tickParked s =
        { s with
            isTransitioning := false
            log := s.log ++ ["PARKED"]
            leds := fill_solid s.leds NUM_LEDS ⟨0, 0, 0⟩
            triggerInterval := SLOW_TRIGGER_INTERVAL }) ∧
    (s.isTransitioning = false →
      tickAway s = s ∧
      (now - s.inactivityStart < INACTIVITY_SECONDS * 1000 → tickParking now s = s) ∧
      tickParked s = s) ∧
    tickAway (tickAway s) = tickAway s ∧
    tickParked (tickParked s) = tickParked s ∧
    (s.isTransitioning = true → now2 - now < INACTIVITY_SECONDS * 1000 →
      tickParking now2 (tickParking now s) = tickParking now s) := by
  refine ⟨?_, ?_, ?_, ?_, ?_⟩
  · intro h
    exact ⟨tickAway_entry s h, tickParking_entry now s h, tickParked_entry s h⟩
  · intro h
    exact ⟨tickAway_skip s h, fun hlt => tickParking_skip now s h hlt, tickParked_skip s h⟩
  · by_cases h : s.isTransitioning = true
    · rw [tickAway_entry s h]
      exact tickAway_skip _ rfl
    · rw [tickAway_skip s (by simpa using h), tickAway_skip s (by simpa using h)]
  · by_cases h : s.isTransitioning = true
    · rw [tickParked_entry s h]
      exact tickParked_skip _ rfl
    · rw [tickParked_skip s (by simpa using h), tickParked_skip s (by simpa using h)]
  · intro h hlt
    rw [tickParking_entry now s h]
    exact tickParking_skip now2 _ rfl hlt

/-- Witness for C7 from the initial (entering) state: the first tick logs
"AWAY" and clears the flag; repeating the tick changes nothing. -/
theorem c7_witness :
    tickAway initSys =
      { initSys with
          isTransitioning := false
          log := initSys.log ++ ["AWAY"]
          triggerInterval := SLOW_TRIGGER_INTERVAL } ∧
    tickParking 0 initSys =
      { initSys with
          isTransitioning := false
          log := initSys.log ++ ["PARKING"]
          triggerInterval := FAST_TRIGGER_INTERVAL
          inactivityStart := 0 } ∧
    tickParked initSys =
      { initSys with
          isTransitioning := false
          log := initSys.log ++ ["PARKED"]
          leds := fill_solid initSys.leds NUM_LEDS ⟨0, 0, 0⟩
          triggerInterval := SLOW_TRIGGER_INTERVAL } :=
  (c7_entry_actions_once initSys 0 1).1 rfl

/-- C10: `prevDistance` persists across `Parking` sessions — it starts at
0, a `Parking` entry tick restarts the inactivity timer but never touches
`prevDistance`, and the only event that changes it is an in-band reading
in `Parking` whose (wrapped) difference from the stored value exceeds the
hysteresis threshold, which stores exactly that reading. -/
theorem c10_prevDistance_persists (s : Sys) (e : Event) (now : Nat) :
    initSys.prevDistance = 0 ∧
    (tickParking now s).prevDistance = s.prevDistance ∧
    (s.isTransitioning = true → (tickParking now s).inactivityStart = now) ∧
    ((stepEvent s e).prevDistance = s.prevDistance ∨
      ∃ d t, e = Event.ping d t ∧ s.state = PARKING_STATE ∧
        MIN_TRIGGER_DISTANCE ≤ d ∧ d ≤ MAX_TRIGGER_DISTANCE ∧
        4 < uintSub d s.prevDistance ∧ (stepEvent s e).prevDistance = d) := by
  refine ⟨rfl, tickParking_prevDistance now s, ?_, ?_⟩
  · intro h
    rw [tickParking_entry now s h]
  · cases e with
    | tick n =>
      left
      show (loopTick n s).prevDistance = s.prevDistance
      rcases hs : s.state with _ | _ | _
      · rw [show loopTick n s = tickAway s by unfold loopTick; rw [hs]]
        unfold tickAway
        split <;> rfl
      · rw [show loopTick n s = tickParking n s by unfold loopTick; rw [hs]]
        exact tickParking_prevDistance n s
      · rw [show loopTick n s = tickParked s by unfold loopTick; rw [hs]]
        unfold tickParked
        split <;> rfl
    | ping d t =>
      show (PingRecieved d t s).prevDistance = s.prevDistance ∨ _
      rcases hs : s.state with _ | _ | _
      · left
        rw [show PingRecieved d t s = awayPingReceived d s by unfold PingRecieved; rw [hs]]
        unfold awayPingReceived
        split <;> rfl
      · have e0 : PingRecieved d t s = parkingPingReceived d t s := by
          unfold PingRecieved
          rw [hs]
        by_cases hb : d < MIN_TRIGGER_DISTANCE ∨ MAX_TRIGGER_DISTANCE < d
        · left
          rw [e0]
          unfold parkingPingReceived
          rw [if_pos hb]
        · by_cases hh : 4 < uintSub d s.prevDistance
          · right
            refine ⟨d, t, rfl, rfl, by omega, by omega, hh, ?_⟩
            show (PingRecieved d t s).prevDistance = d
            rw [e0]
            unfold parkingPingReceived
            rw [if_neg hb]
            dsimp only
            rw [if_pos hh]
          · left
            rw [e0]
            unfold parkingPingReceived
            rw [if_neg hb]
            dsimp only
            rw [if_neg hh]
      · left
        rw [show PingRecieved d t s = parkedPingReceived d s by unfold PingRecieved; rw [hs]]
        unfold parkedPingReceived
        split <;> rfl
    | timeout =>
      left
      show (PingTimeout s).prevDistance = s.prevDistance
      unfold PingTimeout
      split <;> rfl

/-- Witness for C10: a `Parking` entry tick at instant 7 from the initial
state restarts the inactivity timer to 7 (while, per the same theorem,
`prevDistance` stays 0). -/
theorem c10_witness : (tickParking 7 initSys).inactivityStart = 7 :=
  (c10_prevDistance_persists initSys (Event.ping 50 3) 7).2.2.1 rfl

end ParkingHelper
